import Mathlib

/-!
Verification of the OpenCard SDK session/token-lifecycle core.

The definitions below are a shallow embedding of the JavaScript source:
  - src/core/OpenCardClient.js   (session manager, refresh, callback, registry)
  - src/OpenCard.js              (pending-request store)
  - environment.js               (client-id / auth-url resolution)

Timestamps are naturals (milliseconds since epoch); JS `null` becomes
`Option.none`; JS truthiness and `null`-coerced comparisons are modelled
explicitly by the `js*` helpers.
-/

namespace OpenCard

/-- JS comparison `e > t` where `e : number | null` (null coerces to 0). -/
def jsGt : Option Nat → Nat → Bool
  | none, _ => false
  | some e, t => decide (t < e)

/-- JS comparison `e < t` where `e : number | null` (null coerces to 0). -/
def jsLt : Option Nat → Nat → Bool
  | none, t => decide (0 < t)
  | some e, t => decide (e < t)

/-- JS truthiness of a `string | null` value (empty string is falsy). -/
def jsTruthyStr : Option String → Bool
  | none => false
  | some s => decide (s ≠ "")

/-- JS `x || d` for an optional number (0 is falsy and also falls back). -/
def jsOrDefault : Option Nat → Nat → Nat
  | none, d => d
  | some n, d => if n = 0 then d else n

/-- The in-memory session held by `OpenCardClient` (`this.session`). -/
structure Session where
  accessToken : Option String
  accessExpires : Option Nat
  ephemeralKey : Option String
  ephemeralExpires : Option Nat
  user : Option String
deriving DecidableEq

/-- The all-null session the constructor and `clearSession` install. -/
def emptySession : Session :=
  { accessToken := none, accessExpires := none, ephemeralKey := none
    ephemeralExpires := none, user := none }

/-- The five-minute refresh threshold, in milliseconds. -/
def fiveMinutesInMs : Nat := 5 * 60 * 1000

/-- Parsed form of the durable session-metadata record. -/
structure SessionMetadata where
  accessExpires : Option Nat
  ephemeralExpires : Option Nat
  user : Option String
  savedAt : Nat
deriving DecidableEq

/-- `saveSessionMetadata`: the metadata object built from a session. -/
def mkSessionMetadata (s : Session) (now : Nat) : SessionMetadata :=
  { accessExpires := s.accessExpires, ephemeralExpires := s.ephemeralExpires
    user := s.user, savedAt := now }

/-- A JSON-ish value, for the serialized localStorage record. -/
inductive JVal where
  | jnull
  | jnum (n : Nat)
  | jstr (s : String)
deriving DecidableEq

/-- Serialize an optional number the way `JSON.stringify` renders it. -/
def jOfNum : Option Nat → JVal
  | none => JVal.jnull
  | some n => JVal.jnum n

/-- Serialize an optional string/profile the way `JSON.stringify` renders it. -/
def jOfStr : Option String → JVal
  | none => JVal.jnull
  | some s => JVal.jstr s

/-- The exact key/value record `saveSessionMetadata` writes to localStorage:
only `accessExpires`, `ephemeralExpires`, `user` and `savedAt`. -/
def metadataRecord (s : Session) (now : Nat) : List (String × JVal) :=
  [("accessExpires", jOfNum s.accessExpires),
   ("ephemeralExpires", jOfNum s.ephemeralExpires),
   ("user", jOfStr s.user),
   ("savedAt", JVal.jnum now)]

/-- Session initialization in the `OpenCardClient` constructor: global
session wins, else persisted metadata with a future `accessExpires` is
loaded into a token-less session (second return value is
`hasSessionMetadata`). -/
def initSessionFromStorage (globalSession : Option Session)
    (meta : Option SessionMetadata) (now : Nat) : Session × Bool :=
  match globalSession with
  | some g => (g, false)
  | none =>
    match meta with
    | some m =>
      match m.accessExpires with
      | some e =>
        if 0 < e ∧ now < e then
          ({ accessToken := none, accessExpires := some e, ephemeralKey := none
             ephemeralExpires := m.ephemeralExpires, user := m.user }, true)
        else (emptySession, false)
      | none => (emptySession, false)
    | none => (emptySession, false)

/-- Result record of `checkAuthStatus` (the three status booleans). -/
structure AuthStatus where
  isAuthenticated : Bool
  needsRefresh : Bool
  hasTokens : Bool
deriving DecidableEq

/-- The non-global branches of `checkAuthStatus`. -/
def checkAuthStatusLocal (session : Session) (hasMeta : Bool) (now : Nat) :
    AuthStatus × Session :=
  if hasMeta then
    ({ isAuthenticated := true, needsRefresh := true, hasTokens := false }, session)
  else
    let hasValidToken := jsTruthyStr session.accessToken && jsGt session.accessExpires now
    let needsRefresh := hasValidToken && jsLt session.accessExpires (now + fiveMinutesInMs)
    ({ isAuthenticated := hasValidToken || hasMeta
       needsRefresh := needsRefresh || !hasValidToken || hasMeta
       hasTokens := hasValidToken }, session)

/-- `checkAuthStatus`: a fresh global session wins and is synced locally;
otherwise metadata-backed sessions report authenticated-but-needs-refresh;
otherwise the in-memory token decides. Also returns the (possibly synced)
session. -/
def checkAuthStatus (globalSession : Option Session) (session : Session)
    (hasMeta : Bool) (now : Nat) : AuthStatus × Session :=
  match globalSession with
  | some g =>
    if jsTruthyStr g.accessToken && jsGt g.accessExpires now then
      ({ isAuthenticated := true
         needsRefresh := jsLt g.accessExpires (now + fiveMinutesInMs)
         hasTokens := true }, g)
    else checkAuthStatusLocal session hasMeta now
  | none => checkAuthStatusLocal session hasMeta now

/-- `{ method, path, body }` of one API call (src/OpenCard.js). -/
structure SavedRequest where
  method : String
  path : String
  body : String
deriving DecidableEq

/-- The storage envelope around a saved request. -/
structure SavedRequestEnvelope where
  version : Nat
  timestamp : Nat
  expiresAt : Nat
  request : SavedRequest
deriving DecidableEq

/-- `OpenCard.STATE_VERSION`. -/
def STATE_VERSION : Nat := 1

/-- `OpenCard.EXPIRY_MS` (5 minutes). -/
def EXPIRY_MS : Nat := 5 * 60 * 1000

/-- `OpenCard._saveRequest`: wrap a request in a fresh envelope. -/
def saveRequest (req : SavedRequest) (now : Nat) : SavedRequestEnvelope :=
  { version := STATE_VERSION, timestamp := now, expiresAt := now + EXPIRY_MS
    request := req }

/-- `OpenCard._retrieveRequest`: returns the saved request and the storage
contents afterwards; a version mismatch or an expired envelope is cleared
and reported as absent. -/
def retrieveRequest (stored : Option SavedRequestEnvelope) (now : Nat) :
    Option SavedRequest × Option SavedRequestEnvelope :=
  match stored with
  | none => (none, none)
  | some st =>
    if st.version ≠ STATE_VERSION then (none, none)
    else if st.expiresAt < now then (none, none)
    else (some st.request, some st)

/-- JS `String.prototype.endsWith`. -/
def endsWithB (s pat : String) : Bool := List.isSuffixOf pat.data s.data

/-- `resolveClientId` (environment.js): empty ids pass through; ids already
suffixed `_dev`/`_prod` pass through; otherwise the environment suffix is
appended. -/
def resolveClientId (isDev : Bool) (base : String) : String :=
  if base = "" then base
  else if endsWithB base "_dev" || endsWithB base "_prod" then base
  else if isDev then base ++ "_dev" else base ++ "_prod"

/-- `resolveAuthUrl` (environment.js): a truthy custom URL wins, else the
environment-specific default. -/
def resolveAuthUrl (isDev : Bool) (custom : String) : String :=
  if custom = "" then
    if isDev then "https://auth-dev.opencard.ai" else "https://auth.opencard.ai"
  else custom

/-- `getInstanceKey`: the hyphen-joined registry key, with `default`
fallbacks for falsy components. -/
def getInstanceKey (authUrl clientId : String) : String :=
  (if authUrl = "" then "default" else authUrl) ++ "-" ++
    (if clientId = "" then "default" else clientId)

/-- `window.__OPENCARD_INSTANCES.clients` plus a counter generating fresh
instance identities (each `new` expression yields a distinct object). -/
structure Registry where
  clients : List (String × Nat)
  nextId : Nat
deriving DecidableEq

/-- Key lookup in the registry map. -/
def Registry.lookup (reg : Registry) (k : String) : Option Nat :=
  (reg.clients.find? (fun p => p.1 = k)).map Prod.snd

/-- Well-formedness of the registry map: distinct keys, distinct live
instances, and all registered instances predate the id counter. -/
def Registry.WF (reg : Registry) : Prop :=
  (∀ p ∈ reg.clients, p.2 < reg.nextId) ∧
  reg.clients.Pairwise (fun p q => p.1 ≠ q.1 ∧ p.2 ≠ q.2)

/-- The `OpenCardClient` constructor's singleton logic: resolve the config,
build the instance key, and either return the registered instance or
register a fresh one. -/
def constructClient (reg : Registry) (isDev : Bool) (cfgAuthUrl cfgClientId : String) :
    Nat × Registry :=
  let authUrl := resolveAuthUrl isDev cfgAuthUrl
  let clientId := resolveClientId isDev cfgClientId
  let key := getInstanceKey authUrl clientId
  match reg.lookup key with
  | some inst => (inst, reg)
  | none => (reg.nextId, { clients := (key, reg.nextId) :: reg.clients, nextId := reg.nextId + 1 })

/-- Token-endpoint response body on success. -/
structure Tokens where
  access_token : String
  expires_in : Nat
  ephemeral_key : Option String
  ephemeral_expires_in : Option Nat
  user : Option String
deriving DecidableEq

/-- `JSON.parse` of an error body, when it parses. -/
structure ErrData where
  error : Option String
  errorDescription : Option String
deriving DecidableEq

/-- One outcome of a `fetch` of the token endpoint: a thrown network error,
a non-ok HTTP response (raw text, parse result, Set-Cookie names), or an ok
JSON response. -/
inductive FetchOutcome where
  | netError
  | httpError (status : Nat) (body : String) (parsed : Option ErrData)
      (setCookieNames : List String)
  | success (tokens : Tokens) (setCookieNames : List String)
deriving DecidableEq

/-- Contiguous-sublist test on character lists. -/
def substrListB (pat : List Char) : List Char → Bool
  | [] => pat.isEmpty
  | a :: as => pat.isPrefixOf (a :: as) || substrListB pat as

/-- Boolean substring test (JS `String.prototype.includes`). -/
def substrB (pat s : String) : Bool := substrListB pat.data s.data

/-- Cookie names `trackSessionChanges` treats as session-related. -/
def sessionRelatedCookie (n : String) : Bool :=
  substrB "session" n || substrB "connect.sid" n || substrB "opencard" n ||
    substrB "auth" n

/-- The `isSessionExpired` analysis of an error response in
`_performRefresh`. -/
def isSessionExpired (body : String) (parsed : Option ErrData) : Bool :=
  (match parsed with
   | some d => d.error = some "invalid_grant"
   | none => false) ||
  (match parsed with
   | some d =>
     match d.errorDescription with
     | some desc => substrB "session" desc
     | none => false
   | none => false) ||
  substrB "Session has expired" body || substrB "Session not found" body ||
  substrB "invalid_grant" body || substrB "expired" body ||
  substrB "Invalid session" body

/-- The `isAuthError` classification `_performRefresh` attaches to a non-ok
response (401/403, expiry patterns, or a masked/empty 400). -/
def isAuthErrorOf (status : Nat) (body : String) (parsed : Option ErrData) : Bool :=
  let sessionExpired := isSessionExpired body parsed
  let is400SessionError := status = 400 &&
    (sessionExpired || body = "" || substrB "Failed to read error response" body)
  status = 401 || status = 403 || sessionExpired || is400SessionError

/-- The error a failed refresh attempt throws, as classified by the code
(`status` is `none` when `fetch` itself threw). `name` and `message` are
the JS Error fields the retry loop's catch block inspects. -/
structure RefreshErr where
  name : String
  message : String
  status : Option Nat
  isAuthError : Bool
deriving DecidableEq

/-- The message of the error thrown for a non-ok token-endpoint response:
`Token refresh failed: {status} - {body || 'Unknown error (CORS?)'}`. -/
def httpErrorMessage (status : Nat) (body : String) : String :=
  "Token refresh failed: " ++ toString status ++ " - " ++
    (if body = "" then "Unknown error (CORS?)" else body)

/-- Observable side effects of the refresh/recovery paths. -/
inductive Ev where
  | fetchRefresh
  | delayMs (n : Nat)
  | saveMetaEv (m : SessionMetadata)
  | clearMetaEv
  | clearCookiesStorage
  | broadcastMsg (t : String)
deriving DecidableEq

/-- PKCE values in sessionStorage
(`opencard_code_verifier` / `opencard_state` / `opencard_return_url`). -/
structure PkceStore where
  codeVerifier : Option String
  stateValue : Option String
  returnUrl : Option String
deriving DecidableEq

/-- The cleared PKCE store. -/
def emptyPkce : PkceStore :=
  { codeVerifier := none, stateValue := none, returnUrl := none }

/-- The mutable state one `OpenCardClient` instance plus the process-wide
registry slots expose to `ensureFresh`. -/
structure ClientState where
  session : Session
  hasSessionMetadata : Bool
  refreshInProgress : Bool
  lockHeld : Bool
  lockPromiseSet : Bool
  lockLastRefreshTime : Nat
  globalSession : Option Session
  metaStore : Option SessionMetadata
  pkce : PkceStore
  lastSessionRotation : Option Nat
deriving DecidableEq

/-- The session `_performRefresh` installs from a token response
(`user` is preserved from the current session). -/
def refreshedSession (tk : Tokens) (now : Nat) (user : Option String) : Session :=
  { accessToken := some tk.access_token
    accessExpires := some (now + tk.expires_in * 1000)
    ephemeralKey := tk.ephemeral_key
    ephemeralExpires := some (now + jsOrDefault tk.ephemeral_expires_in 300 * 1000)
    user := user }

/-- `trackSessionChanges`: when the response carries session-related
Set-Cookie headers, record the rotation time and broadcast it. -/
def trackSessionChanges (cookieNames : List String) (now : Nat) (st : ClientState) :
    ClientState × List Ev :=
  if cookieNames.any sessionRelatedCookie then
    ({ st with lastSessionRotation := some now },
     [Ev.broadcastMsg "session-rotation-detected"])
  else (st, [])

/-- One iteration of the retry loop in `_performRefresh`: issue the fetch
and either install the refreshed session (plus metadata, global state and
cross-tab broadcast) or produce the classified error. -/
def attemptRefresh (o : FetchOutcome) (now : Nat) (st : ClientState) :
    Except RefreshErr Session × ClientState × List Ev :=
  match o with
  | FetchOutcome.netError =>
    (Except.error { name := "TypeError", message := "Failed to fetch"
                    status := none, isAuthError := false }, st, [Ev.fetchRefresh])
  | FetchOutcome.httpError status body parsed cookies =>
    let (st₁, rotEvs) := trackSessionChanges cookies now st
    (Except.error { name := "Error", message := httpErrorMessage status body
                    status := some status
                    isAuthError := isAuthErrorOf status body parsed },
     st₁, Ev.fetchRefresh :: rotEvs)
  | FetchOutcome.success tk cookies =>
    let (st₁, rotEvs) := trackSessionChanges cookies now st
    let newSession := refreshedSession tk now st₁.session.user
    let meta := mkSessionMetadata newSession now
    (Except.ok newSession,
     { st₁ with session := newSession, globalSession := some newSession
                metaStore := some meta },
     Ev.fetchRefresh :: rotEvs ++ [Ev.saveMetaEv meta, Ev.broadcastMsg "session-updated"])

/-- `recoverSession`: best-effort cookie/storage cleanup, clear the session
while restoring `user`, broadcast, and report that recovery needs explicit
user action (`false`). -/
def recoverSession (now : Nat) (st : ClientState) : Bool × ClientState × List Ev :=
  let st₁ := { st with metaStore := none, pkce := emptyPkce }
  let userInfo := st₁.session.user
  let st₂ := { st₁ with session := emptySession, hasSessionMetadata := false
                        refreshInProgress := false, globalSession := none }
  let st₃ :=
    if userInfo.isSome then { st₂ with session := { st₂.session with user := userInfo } }
    else st₂
  (false, st₃,
   [Ev.clearCookiesStorage, Ev.clearMetaEv, Ev.broadcastMsg "session-recovery-needed"])

/-- The catch block of the retry loop (`OpenCardClient.js:525-530`): an
error whose `name` is `TypeError` or whose `message` contains
`Failed to fetch` is marked non-auth; the same test is the
`isNetworkError` flag that drives the 500 ms retry (second component). -/
def reclassifyErr (err : RefreshErr) : RefreshErr × Bool :=
  let cond := err.name = "TypeError" || substrB "Failed to fetch" err.message
  ({ err with isAuthError := err.isAuthError && !cond }, cond)

/-- The bounded retry check: a session rotation observed less than 60 s ago. -/
def recentRotation (st : ClientState) (now : Nat) : Bool :=
  match st.lastSessionRotation with
  | some r => decide (now - r < 60000)
  | none => false

/-- The failure epilogue of `_performRefresh`: auth-classified errors run
session recovery before the throw; transient errors leave the session for a
later retry. -/
def failRefresh (err : RefreshErr) (now : Nat) (st : ClientState) (evs : List Ev) :
    Except RefreshErr Session × ClientState × List Ev :=
  if err.isAuthError then
    let (_, st', evs') := recoverSession now st
    (Except.error err, st', evs ++ evs')
  else (Except.error err, st, evs)

/-- `_performRefresh`: at most two attempts; every caught error is first
put through the catch block's reclassification (`reclassifyErr`), whose
network flag drives the 500 ms retry; an error still auth-classified
retries after 1000 ms only under a recent session rotation; the final
(reclassified) failure is handled by `failRefresh`. -/
def performRefresh (o₁ o₂ : FetchOutcome) (now : Nat) (st : ClientState) :
    Except RefreshErr Session × ClientState × List Ev :=
  match attemptRefresh o₁ now st with
  | (Except.ok s, st₁, e₁) => (Except.ok s, st₁, e₁)
  | (Except.error err, st₁, e₁) =>
    let (err', isNetworkError) := reclassifyErr err
    if isNetworkError then
      match attemptRefresh o₂ now st₁ with
      | (Except.ok s, st₂, e₂) => (Except.ok s, st₂, e₁ ++ Ev.delayMs 500 :: e₂)
      | (Except.error err₂, st₂, e₂) =>
        failRefresh (reclassifyErr err₂).1 now st₂ (e₁ ++ Ev.delayMs 500 :: e₂)
    else if err'.isAuthError && recentRotation st₁ now then
      match attemptRefresh o₂ now st₁ with
      | (Except.ok s, st₂, e₂) => (Except.ok s, st₂, e₁ ++ Ev.delayMs 1000 :: e₂)
      | (Except.error err₂, st₂, e₂) =>
        failRefresh (reclassifyErr err₂).1 now st₂ (e₁ ++ Ev.delayMs 1000 :: e₂)
    else failRefresh err' now st₁ e₁

/-- `ensureFresh`: await a shared in-flight refresh if the global lock is
held; poll out a local in-progress refresh; sync a fresh global session;
skip the network entirely when the token has over five minutes left; else
acquire the lock, run `_performRefresh`, and release the lock. `shared` is
the eventual value of the in-flight promise awaited in the locked case. -/
def ensureFresh (shared : Option (Except RefreshErr Session))
    (o₁ o₂ : FetchOutcome) (now : Nat) (st : ClientState) :
    Except RefreshErr Session × ClientState × List Ev :=
  let body : ClientState → Except RefreshErr Session × ClientState × List Ev :=
    fun st₀ =>
      if st₀.refreshInProgress then
        (Except.ok st₀.session, st₀, List.replicate 100 (Ev.delayMs 100))
      else
        let doRefresh : Except RefreshErr Session × ClientState × List Ev :=
          let st₁ := { st₀ with lockHeld := true, lockLastRefreshTime := now
                                refreshInProgress := true, lockPromiseSet := true }
          let (res, st₂, evs) := performRefresh o₁ o₂ now st₁
          (res, { st₂ with lockHeld := false, lockPromiseSet := false
                           refreshInProgress := false }, evs)
        let tokenCheck : Except RefreshErr Session × ClientState × List Ev :=
          if jsTruthyStr st₀.session.accessToken && jsGt st₀.session.accessExpires now then
            match st₀.session.accessExpires with
            | some e =>
              if fiveMinutesInMs < e - now then (Except.ok st₀.session, st₀, [])
              else doRefresh
            | none => doRefresh
          else doRefresh
        match st₀.globalSession with
        | some g =>
          if jsTruthyStr g.accessToken && jsGt g.accessExpires now then
            (Except.ok g, { st₀ with session := g }, [])
          else tokenCheck
        | none => tokenCheck
  if st.lockHeld ∧ st.lockPromiseSet then
    match shared with
    | some (Except.ok r) =>
      let st' := if jsTruthyStr r.accessToken then { st with session := r } else st
      (Except.ok st'.session, st', [])
    | some (Except.error _) => body st
    | none => body st
  else body st

/-- The parts of `window.location` the callback handler reads and rewrites. -/
structure UrlState where
  origin : String
  pathname : String
  searchParams : List (String × String)
  hashParams : Option (List (String × String))
deriving DecidableEq

/-- `URLSearchParams.get`. -/
def getParam (l : List (String × String)) (k : String) : Option String :=
  (l.find? (fun p => p.1 = k)).map Prod.snd

/-- Parameter resolution in `handleRedirectCallback`: the hash is parsed
first; if it yields neither a (truthy) code nor error, all three values are
re-read from the query string. -/
def resolveCallbackParams (url : UrlState) :
    Option String × Option String × Option String :=
  let fromHash :=
    match url.hashParams with
    | some hp => (getParam hp "code", getParam hp "state", getParam hp "error")
    | none => (none, none, none)
  if !jsTruthyStr fromHash.1 && !jsTruthyStr fromHash.2.2 then
    (getParam url.searchParams "code", getParam url.searchParams "state",
     getParam url.searchParams "error")
  else fromHash

/-- Observable effects of the redirect-callback handler, in program order. -/
inductive CbEv where
  | urlReplaced (newUrl : String)
  | readStoredState (v : Option String)
  | fetchExchange
  | cbSaveMeta (m : SessionMetadata)
  | pkceCleared
  | navigate (url : String)
  | fetchProfile
  | broadcastSessionUpdated
deriving DecidableEq

/-- Errors `handleRedirectCallback` can throw. -/
inductive CbError where
  | oauthError (err : String) (desc : Option String)
  | csrfError
  | missingVerifier
  | exchangeError (e : String)
deriving DecidableEq

deriving instance DecidableEq for Except

/-- Full result of one `handleRedirectCallback` run: outcome, the visible
URL afterwards, and the storage/session state it leaves behind. -/
structure CbResult where
  result : Except CbError (Option Session)
  finalUrl : UrlState
  pkce : PkceStore
  session : Session
  globalSession : Option Session
  metaStore : Option SessionMetadata
  events : List CbEv
deriving DecidableEq

/-- `handleRedirectCallback`. The `exchange` argument is the oracle for
`exchangeCodeForTokens` (its thrown error as a string, or the token
response). Note the source order: the URL is rewritten to
`origin + pathname` before the stored state is read, the CSRF and
missing-verifier throws occur before the `try` block, and only the
exchange error path clears the PKCE keys. -/
def handleRedirectCallback (exchange : Except String Tokens) (now : Nat)
    (url : UrlState) (pkce : PkceStore) (session : Session)
    (globalSession : Option Session) (metaStore : Option SessionMetadata) :
    CbResult :=
  let (code, stP, errP) := resolveCallbackParams url
  if jsTruthyStr errP then
    let desc :=
      match url.hashParams with
      | some hp => getParam hp "error_description"
      | none => getParam url.searchParams "error_description"
    { result := Except.error (CbError.oauthError (errP.getD "") desc)
      finalUrl := url, pkce := pkce, session := session
      globalSession := globalSession, metaStore := metaStore, events := [] }
  else if !jsTruthyStr code then
    { result := Except.ok none, finalUrl := url, pkce := pkce, session := session
      globalSession := globalSession, metaStore := metaStore, events := [] }
  else
    let cleanUrl := url.origin ++ url.pathname
    let url₁ : UrlState :=
      { origin := url.origin, pathname := url.pathname, searchParams := []
        hashParams := none }
    let evs₁ := [CbEv.urlReplaced cleanUrl, CbEv.readStoredState pkce.stateValue]
    if stP ≠ pkce.stateValue then
      { result := Except.error CbError.csrfError, finalUrl := url₁, pkce := pkce
        session := session, globalSession := globalSession, metaStore := metaStore
        events := evs₁ }
    else if !jsTruthyStr pkce.codeVerifier then
      { result := Except.error CbError.missingVerifier, finalUrl := url₁, pkce := pkce
        session := session, globalSession := globalSession, metaStore := metaStore
        events := evs₁ }
    else
      match exchange with
      | Except.error e =>
        { result := Except.error (CbError.exchangeError e), finalUrl := url₁
          pkce := emptyPkce, session := session, globalSession := globalSession
          metaStore := metaStore
          events := evs₁ ++ [CbEv.fetchExchange, CbEv.pkceCleared] }
      | Except.ok tk =>
        let newSession : Session :=
          { accessToken := some tk.access_token
            accessExpires := some (now + tk.expires_in * 1000)
            ephemeralKey := tk.ephemeral_key
            ephemeralExpires := some (now + jsOrDefault tk.ephemeral_expires_in 300 * 1000)
            user := if jsTruthyStr tk.user then tk.user else none }
        let meta := mkSessionMetadata newSession now
        let pkce₁ := emptyPkce
        if jsTruthyStr pkce₁.returnUrl then
          { result := Except.ok (some newSession), finalUrl := url₁, pkce := pkce₁
            session := newSession, globalSession := some newSession
            metaStore := some meta
            events := evs₁ ++ [CbEv.fetchExchange, CbEv.cbSaveMeta meta,
              CbEv.pkceCleared, CbEv.navigate (pkce₁.returnUrl.getD "")] }
        else
          { result := Except.ok (some newSession), finalUrl := url₁, pkce := pkce₁
            session := newSession, globalSession := some newSession
            metaStore := some meta
            events := evs₁ ++ [CbEv.fetchExchange, CbEv.cbSaveMeta meta,
              CbEv.pkceCleared, CbEv.fetchProfile, CbEv.broadcastSessionUpdated] }

/-- The over-five-minutes freshness test of `ensureFresh`, as one predicate. -/
def validOver5min (s : Session) (now : Nat) : Bool :=
  (jsTruthyStr s.accessToken && jsGt s.accessExpires now) &&
    (match s.accessExpires with
     | some e => decide (fiveMinutesInMs < e - now)
     | none => false)

/-- Freshness test on the shared global session. -/
def globalFreshB (g : Option Session) (now : Nat) : Bool :=
  match g with
  | some s => jsTruthyStr s.accessToken && jsGt s.accessExpires now
  | none => false

/-- Program counter of one concurrent `ensureFresh` caller. Between two
suspension points a caller runs atomically (JavaScript's run-to-completion
scheduling). -/
inductive TaskPc where
  | start
  | waiting
  | owner
  | releasing
  | done (ret : Session)
deriving DecidableEq

/-- Shared state of the concurrent-refresh system: the global lock flag
with its in-flight promise, the fetch counter, the instance session, the
shared global session, and every caller's program counter. -/
structure ConcState where
  locked : Bool
  resolved : Option Session
  fetches : Nat
  sess : Session
  globalSess : Option Session
  tasks : List TaskPc
deriving DecidableEq

/-- Initial state: `N` callers about to enter `ensureFresh`. -/
def initConc (s0 : Session) (g0 : Option Session) (N : Nat) : ConcState :=
  { locked := false, resolved := none, fetches := 0, sess := s0
    globalSess := g0, tasks := List.replicate N TaskPc.start }

/-- One scheduling step of the concurrent system. Each rule is one atomic
segment of `ensureFresh` (source order: locked-wait, global-session sync,
over-5-minute fast path, lock acquisition with the fetch issued in the same
synchronous segment, promise resolution installing the refreshed session,
lock release in the `finally`, and a waiter syncing the shared result). -/
inductive CStep (tk : Tokens) (now : Nat) : ConcState → ConcState → Prop where
  | startWait (st : ConcState) (i : Nat)
      (hi : st.tasks.get? i = some TaskPc.start) (hl : st.locked = true) :
      CStep tk now st { st with tasks := st.tasks.set i TaskPc.waiting }
  | startGlobal (st : ConcState) (i : Nat) (g : Session)
      (hi : st.tasks.get? i = some TaskPc.start) (hl : st.locked = false)
      (hg : st.globalSess = some g) (hf : globalFreshB st.globalSess now = true) :
      CStep tk now st { st with sess := g, tasks := st.tasks.set i (TaskPc.done g) }
  | startValid (st : ConcState) (i : Nat)
      (hi : st.tasks.get? i = some TaskPc.start) (hl : st.locked = false)
      (hg : globalFreshB st.globalSess now = false)
      (hv : validOver5min st.sess now = true) :
      CStep tk now st { st with tasks := st.tasks.set i (TaskPc.done st.sess) }
  | startAcquire (st : ConcState) (i : Nat)
      (hi : st.tasks.get? i = some TaskPc.start) (hl : st.locked = false)
      (hg : globalFreshB st.globalSess now = false)
      (hv : validOver5min st.sess now = false) :
      CStep tk now st { st with locked := true, fetches := st.fetches + 1
                                tasks := st.tasks.set i TaskPc.owner }
  | fetchResolve (st : ConcState) (i : Nat)
      (hi : st.tasks.get? i = some TaskPc.owner) :
      CStep tk now st { st with sess := refreshedSession tk now st.sess.user
                                globalSess := some (refreshedSession tk now st.sess.user)
                                resolved := some (refreshedSession tk now st.sess.user)
                                tasks := st.tasks.set i TaskPc.releasing }
  | ownerRelease (st : ConcState) (i : Nat) (r : Session)
      (hi : st.tasks.get? i = some TaskPc.releasing) (hr : st.resolved = some r) :
      CStep tk now st { st with locked := false, tasks := st.tasks.set i (TaskPc.done r) }
  | waiterResume (st : ConcState) (i : Nat) (r : Session)
      (hi : st.tasks.get? i = some TaskPc.waiting) (hr : st.resolved = some r) :
      CStep tk now st
        (let st' := if jsTruthyStr r.accessToken then { st with sess := r } else st
         { st' with tasks := st'.tasks.set i (TaskPc.done st'.sess) })

/-- Reachability from a given initial state. -/
inductive CReach (tk : Tokens) (now : Nat) (init : ConcState) : ConcState → Prop where
  | refl : CReach tk now init init
  | step {st st' : ConcState} (h : CReach tk now init st) (hs : CStep tk now st st') :
      CReach tk now init st'

/-- C7: the metadata record written to durable storage consists exactly of
the keys `accessExpires`, `ephemeralExpires`, `user`, `savedAt`, and is a
function of those session fields alone — two sessions that differ only in
their `accessToken`/`ephemeralKey` values persist identical records, so
token values never reach storage. Every persisting operation (refresh,
callback, profile fetch) writes through this one serializer. -/
theorem saveSessionMetadata_token_free :
    (∀ (s : Session) (now : Nat),
      (metadataRecord s now).map Prod.fst =
        ["accessExpires", "ephemeralExpires", "user", "savedAt"]) ∧
    (∀ (s₁ s₂ : Session) (now : Nat),
      s₁.accessExpires = s₂.accessExpires →
      s₁.ephemeralExpires = s₂.ephemeralExpires →
      s₁.user = s₂.user →
      metadataRecord s₁ now = metadataRecord s₂ now) := by
  constructor
  · intro s now
    rfl
  · intro s₁ s₂ now h1 h2 h3
    simp [metadataRecord, h1, h2, h3]

/-- Witness for C7: two sessions differing only in token values persist
the same record. -/
theorem saveSessionMetadata_token_free_witness :
    metadataRecord
      { accessToken := some "tokenA", accessExpires := some 1000
        ephemeralKey := some "keyA", ephemeralExpires := some 500
        user := some "u" } 7 =
    metadataRecord
      { accessToken := some "tokenB", accessExpires := some 1000
        ephemeralKey := some "keyB", ephemeralExpires := some 500
        user := some "u" } 7 :=
  saveSessionMetadata_token_free.2 _ _ 7 rfl rfl rfl

/-- C9: a stored pending-request envelope that is expired or carries a
wrong schema version is reported absent and deleted from storage by the
load. -/
theorem retrieveRequest_stale_absent_and_deleted (env : SavedRequestEnvelope)
    (now : Nat) (h : env.expiresAt < now ∨ env.version ≠ STATE_VERSION) :
    retrieveRequest (some env) now = (none, none) := by
  unfold retrieveRequest
  rcases h with h | h
  · by_cases hv : env.version ≠ STATE_VERSION
    · simp [hv]
    · simp [hv, h]
  · simp [h]

/-- Witness for C9: an envelope with `expiresAt = now - 1000` is dropped
and deleted. -/
theorem retrieveRequest_stale_absent_and_deleted_witness :
    retrieveRequest
      (some { version := 1, timestamp := 3000, expiresAt := 4000
              request := { method := "POST", path := "/v1/chat", body := "b" } })
      5000 = (none, none) :=
  retrieveRequest_stale_absent_and_deleted _ 5000 (Or.inl (by decide))

/-- C8: metadata persisted by a successful refresh, loaded by a freshly
constructed manager with no global session, yields a token-less session
(`hasSessionMetadata = true`) and `checkAuthStatus` reports
`isAuthenticated = true, needsRefresh = true, hasTokens = false`. -/
theorem checkAuthStatus_metadata_reload (s₀ : Session) (t₀ now e : Nat)
    (hse : s₀.accessExpires = some e) (he : now < e) :
    (checkAuthStatus none
        (initSessionFromStorage none (some (mkSessionMetadata s₀ t₀)) now).1
        (initSessionFromStorage none (some (mkSessionMetadata s₀ t₀)) now).2 now).1 =
      { isAuthenticated := true, needsRefresh := true, hasTokens := false } ∧
    (initSessionFromStorage none (some (mkSessionMetadata s₀ t₀)) now).1.accessToken = none ∧
    (initSessionFromStorage none (some (mkSessionMetadata s₀ t₀)) now).1.ephemeralKey = none ∧
    (initSessionFromStorage none (some (mkSessionMetadata s₀ t₀)) now).1.accessExpires = some e ∧
    (initSessionFromStorage none (some (mkSessionMetadata s₀ t₀)) now).2 = true := by
  have h0 : 0 < e := Nat.pos_of_ne_zero (by omega)
  simp [initSessionFromStorage, mkSessionMetadata, hse, he, h0, checkAuthStatus,
    checkAuthStatusLocal]

/-- Witness for C8: a concrete refreshed session persisted at `t₀ = 500`
and reloaded at `now = 900`. -/
theorem checkAuthStatus_metadata_reload_witness :
    (checkAuthStatus none
        (initSessionFromStorage none
          (some (mkSessionMetadata
            { accessToken := some "AT1", accessExpires := some 10000
              ephemeralKey := some "EK1", ephemeralExpires := some 2000
              user := some "u" } 500)) 900).1
        (initSessionFromStorage none
          (some (mkSessionMetadata
            { accessToken := some "AT1", accessExpires := some 10000
              ephemeralKey := some "EK1", ephemeralExpires := some 2000
              user := some "u" } 500)) 900).2 900).1 =
      { isAuthenticated := true, needsRefresh := true, hasTokens := false } :=
  (checkAuthStatus_metadata_reload _ 500 900 10000 rfl (by decide)).1

/-- C1: with a truthy access token whose expiry is more than five minutes
away, no refresh in flight (lock free, no local refresh in progress) and no
fresh global session, `ensureFresh` performs no network call, emits no
effects, and returns the current session and state unchanged. -/
theorem ensureFresh_valid_token_no_network
    (shared : Option (Except RefreshErr Session)) (o₁ o₂ : FetchOutcome)
    (now : Nat) (st : ClientState) (t : String) (e : Nat)
    (hlock : st.lockHeld = false)
    (hrip : st.refreshInProgress = false)
    (htok : st.session.accessToken = some t) (ht : t ≠ "")
    (hexp : st.session.accessExpires = some e)
    (hfresh : now + fiveMinutesInMs < e)
    (hglob : globalFreshB st.globalSession now = false) :
    ensureFresh shared o₁ o₂ now st = (Except.ok st.session, st, []) := by
  have hnow : now < e := by
    have h5 : 0 < fiveMinutesInMs := by decide
    omega
  have hrem : fiveMinutesInMs < e - now := by omega
  have htt : jsTruthyStr (some t) = true := by simp [jsTruthyStr, ht]
  have hgt : jsGt (some e) now = true := by simp [jsGt, hnow]
  unfold ensureFresh
  rcases hg : st.globalSession with _ | g
  · simp [hlock, hrip, hg, htok, htt, hgt, hexp, hrem]
  · have hgf : (jsTruthyStr g.accessToken && jsGt g.accessExpires now) = false := by
      have h := hglob
      rw [hg] at h
      simpa [globalFreshB] using h
    simp [hlock, hrip, hg, hgf, htok, htt, hgt, hexp, hrem]

/-- Witness for C1: a concrete fresh session at `now = 100`. -/
theorem ensureFresh_valid_token_no_network_witness :
    ensureFresh none FetchOutcome.netError FetchOutcome.netError 100
      { session :=
          { accessToken := some "AT", accessExpires := some 1000000
            ephemeralKey := some "EK", ephemeralExpires := some 500000
            user := some "u" }
        hasSessionMetadata := false, refreshInProgress := false
        lockHeld := false, lockPromiseSet := false, lockLastRefreshTime := 0
        globalSession := none, metaStore := none, pkce := emptyPkce
        lastSessionRotation := none } =
      (Except.ok
        { accessToken := some "AT", accessExpires := some 1000000
          ephemeralKey := some "EK", ephemeralExpires := some 500000
          user := some "u" },
       { session :=
           { accessToken := some "AT", accessExpires := some 1000000
             ephemeralKey := some "EK", ephemeralExpires := some 500000
             user := some "u" }
         hasSessionMetadata := false, refreshInProgress := false
         lockHeld := false, lockPromiseSet := false, lockLastRefreshTime := 0
         globalSession := none, metaStore := none, pkce := emptyPkce
         lastSessionRotation := none }, []) :=
  ensureFresh_valid_token_no_network none _ _ 100 _ "AT" 1000000 rfl rfl rfl
    (by decide) rfl (by decide) rfl

/-- Helper: when no refresh is in flight, the global session is not fresh
and the local token has at most five minutes left, `ensureFresh` acquires
the lock, runs `_performRefresh`, and releases the lock. -/
theorem ensureFresh_refresh_path (shared : Option (Except RefreshErr Session))
    (o₁ o₂ : FetchOutcome) (now : Nat) (st : ClientState)
    (hlock : st.lockHeld = false) (hrip : st.refreshInProgress = false)
    (hglob : globalFreshB st.globalSession now = false)
    (hstale : validOver5min st.session now = false) :
    ensureFresh shared o₁ o₂ now st =
      ((performRefresh o₁ o₂ now
          { st with lockHeld := true, lockLastRefreshTime := now
                    refreshInProgress := true, lockPromiseSet := true }).1,
       { (performRefresh o₁ o₂ now
          { st with lockHeld := true, lockLastRefreshTime := now
                    refreshInProgress := true, lockPromiseSet := true }).2.1 with
           lockHeld := false, lockPromiseSet := false, refreshInProgress := false },
       (performRefresh o₁ o₂ now
          { st with lockHeld := true, lockLastRefreshTime := now
                    refreshInProgress := true, lockPromiseSet := true }).2.2) := by
  have hgfcase : ∀ g : Session, st.globalSession = some g →
      (jsTruthyStr g.accessToken && jsGt g.accessExpires now) = false := by
    intro g hg
    have h := hglob
    rw [hg] at h
    simpa [globalFreshB] using h
  unfold ensureFresh
  rcases hae : st.session.accessExpires with _ | e
  · have hcond : jsGt st.session.accessExpires now = false := by simp [hae, jsGt]
    rcases hg : st.globalSession with _ | g
    · simp [hlock, hrip, hg, hae, hcond]
    · simp [hlock, hrip, hg, hgfcase g hg, hae, hcond]
  · by_cases hcond : (jsTruthyStr st.session.accessToken && jsGt (some e) now) = true
    · have hrem : ¬ (fiveMinutesInMs < e - now) := by
        have h := hstale
        unfold validOver5min at h
        rw [hae] at h
        simpa [hcond] using h
      rcases hg : st.globalSession with _ | g
      · simp [hlock, hrip, hg, hae, hcond, hrem]
      · simp [hlock, hrip, hg, hgfcase g hg, hae, hcond, hrem]
    · have hcond' : (jsTruthyStr st.session.accessToken && jsGt (some e) now) = false :=
        Bool.eq_false_iff.mpr hcond
      rcases hg : st.globalSession with _ | g
      · simp [hlock, hrip, hg, hae, hcond']
      · simp [hlock, hrip, hg, hgfcase g hg, hae, hcond']

/-- A 401 token-endpoint response is always classified as an auth error. -/
theorem isAuthErrorOf_401 (b : String) (p : Option ErrData) :
    isAuthErrorOf 401 b p = true := by
  simp [isAuthErrorOf]

/-- An HTTP error object is not a `TypeError`. -/
theorem error_name_not_typeerror :
    (decide (("Error" : String) = "TypeError")) = false := by decide

/-- C3 amended: when the refresh endpoint answers 401 and the thrown error
stays authentication-classified — its message
`Token refresh failed: 401 - {body}` does not contain `Failed to fetch`,
so the catch block's network reclassification does not fire — `ensureFresh`
throws the auth-classified error after running session recovery: the
credential fields are cleared, `user` survives, persisted metadata and the
global session are gone, and `recoverSession` reports `false` (explicit
user action required). (Without the message condition the claim fails: see
the counterexample.) -/
theorem ensureFresh_401_auth_classified_recovery
    (shared : Option (Except RefreshErr Session)) (now : Nat) (st : ClientState)
    (b₁ b₂ : String) (p₁ p₂ : Option ErrData) (c₁ c₂ : List String)
    (hlock : st.lockHeld = false) (hrip : st.refreshInProgress = false)
    (hglob : globalFreshB st.globalSession now = false)
    (hstale : validOver5min st.session now = false)
    (hb₁ : substrB "Failed to fetch" (httpErrorMessage 401 b₁) = false)
    (hb₂ : substrB "Failed to fetch" (httpErrorMessage 401 b₂) = false) :
    ∃ err : RefreshErr,
      (ensureFresh shared (FetchOutcome.httpError 401 b₁ p₁ c₁)
          (FetchOutcome.httpError 401 b₂ p₂ c₂) now st).1 = Except.error err ∧
      err.status = some 401 ∧ err.isAuthError = true ∧
      (ensureFresh shared (FetchOutcome.httpError 401 b₁ p₁ c₁)
          (FetchOutcome.httpError 401 b₂ p₂ c₂) now st).2.1.session.accessToken = none ∧
      (ensureFresh shared (FetchOutcome.httpError 401 b₁ p₁ c₁)
          (FetchOutcome.httpError 401 b₂ p₂ c₂) now st).2.1.session.accessExpires = none ∧
      (ensureFresh shared (FetchOutcome.httpError 401 b₁ p₁ c₁)
          (FetchOutcome.httpError 401 b₂ p₂ c₂) now st).2.1.session.ephemeralKey = none ∧
      (ensureFresh shared (FetchOutcome.httpError 401 b₁ p₁ c₁)
          (FetchOutcome.httpError 401 b₂ p₂ c₂) now st).2.1.session.ephemeralExpires = none ∧
      (ensureFresh shared (FetchOutcome.httpError 401 b₁ p₁ c₁)
          (FetchOutcome.httpError 401 b₂ p₂ c₂) now st).2.1.session.user = st.session.user ∧
      (ensureFresh shared (FetchOutcome.httpError 401 b₁ p₁ c₁)
          (FetchOutcome.httpError 401 b₂ p₂ c₂) now st).2.1.metaStore = none ∧
      (ensureFresh shared (FetchOutcome.httpError 401 b₁ p₁ c₁)
          (FetchOutcome.httpError 401 b₂ p₂ c₂) now st).2.1.globalSession = none ∧
      (∀ (m : Nat) (s : ClientState), (recoverSession m s).1 = false) := by
  rw [ensureFresh_refresh_path shared _ _ now st hlock hrip hglob hstale]
  set st₁ := { st with lockHeld := true, lockLastRefreshTime := now
                       refreshInProgress := true, lockPromiseSet := true } with hst₁
  have hsess₁ : st₁.session = st.session := by rw [hst₁]
  have hrc₁ : reclassifyErr
      { name := "Error", message := httpErrorMessage 401 b₁, status := some 401
        isAuthError := isAuthErrorOf 401 b₁ p₁ } =
      ({ name := "Error", message := httpErrorMessage 401 b₁, status := some 401
         isAuthError := true }, false) := by
    unfold reclassifyErr
    simp [hb₁, isAuthErrorOf_401, error_name_not_typeerror]
  have hrc₂ : reclassifyErr
      { name := "Error", message := httpErrorMessage 401 b₂, status := some 401
        isAuthError := isAuthErrorOf 401 b₂ p₂ } =
      ({ name := "Error", message := httpErrorMessage 401 b₂, status := some 401
         isAuthError := true }, false) := by
    unfold reclassifyErr
    simp [hb₂, isAuthErrorOf_401, error_name_not_typeerror]
  unfold performRefresh attemptRefresh
  rcases htc₁ : trackSessionChanges c₁ now st₁ with ⟨st₁', rot₁⟩
  have hsess₁' : st₁'.session = st.session := by
    have : st₁'.session = st₁.session := by
      unfold trackSessionChanges at htc₁
      by_cases hc : c₁.any sessionRelatedCookie = true <;> simp [hc] at htc₁ <;>
        rw [← htc₁.1]
    rw [this, hsess₁]
  by_cases hrot : recentRotation st₁' now = true
  · rcases htc₂ : trackSessionChanges c₂ now st₁' with ⟨st₂', rot₂⟩
    have hsess₂' : st₂'.session = st.session := by
      have : st₂'.session = st₁'.session := by
        unfold trackSessionChanges at htc₂
        by_cases hc : c₂.any sessionRelatedCookie = true <;> simp [hc] at htc₂ <;>
          rw [← htc₂.1]
      rw [this, hsess₁']
    refine ⟨{ name := "Error", message := httpErrorMessage 401 b₂
              status := some 401, isAuthError := true }, ?_⟩
    simp only [htc₁, htc₂, hrc₁, hrc₂, hrot, Bool.true_and, if_true,
      Bool.false_eq_true, if_false, failRefresh, recoverSession]
    rcases hu : st₂'.session.user with _ | u <;>
      simp [hu, hsess₂', ← hsess₂'.symm, emptySession] <;>
      simp [recoverSession, hsess₂' ▸ hu]
  · have hrot' : recentRotation st₁' now = false := Bool.eq_false_iff.mpr hrot
    refine ⟨{ name := "Error", message := httpErrorMessage 401 b₁
              status := some 401, isAuthError := true }, ?_⟩
    simp only [htc₁, hrc₁, hrot', Bool.true_and, Bool.and_false,
      Bool.false_eq_true, if_false, failRefresh, recoverSession]
    rcases hu : st₁'.session.user with _ | u <;>
      simp [hu, hsess₁', emptySession] <;>
      simp [recoverSession, hsess₁' ▸ hu]

/-- A concrete client state with an expired token and a known user. -/
def cState401 : ClientState :=
  { session :=
      { accessToken := some "AT", accessExpires := some 200
        ephemeralKey := some "EK", ephemeralExpires := some 100
        user := some "alice" }
    hasSessionMetadata := true, refreshInProgress := false
    lockHeld := false, lockPromiseSet := false, lockLastRefreshTime := 0
    globalSession := none
    metaStore := some { accessExpires := some 200, ephemeralExpires := some 100
                        user := some "alice", savedAt := 50 }
    pkce := emptyPkce, lastSessionRotation := none }

/-- Witness for C3's amended statement: at a concrete expired session, a
401 with an ordinary body clears the credentials but keeps the user. -/
theorem ensureFresh_401_auth_classified_recovery_witness :
    (ensureFresh none (FetchOutcome.httpError 401 "" none [])
        (FetchOutcome.httpError 401 "" none []) 100000 cState401).2.1.session.user =
      some "alice" ∧
    (ensureFresh none (FetchOutcome.httpError 401 "" none [])
        (FetchOutcome.httpError 401 "" none []) 100000 cState401).2.1.session.accessToken =
      none ∧
    (ensureFresh none (FetchOutcome.httpError 401 "" none [])
        (FetchOutcome.httpError 401 "" none []) 100000 cState401).2.1.metaStore = none := by
  obtain ⟨err, h1, h2, h3, h4, h5, h6, h7, h8, h9, h10, h11⟩ :=
    ensureFresh_401_auth_classified_recovery none 100000 cState401 "" "" none none [] []
      rfl rfl rfl (by decide) (by decide) (by decide)
  exact ⟨h8.trans rfl, h4, h9⟩

/-- Counterexample for C3 as stated: a 401 whose response body contains
`Failed to fetch` ends up with that text interpolated into the error
message, so the catch block reclassifies it as a network error — the 401
is retried after 500 ms, `recoverSession` never runs, the thrown error is
not authentication-classified, and the credentials and metadata survive
intact. -/
theorem ensureFresh_401_failed_to_fetch_counterexample :
    (ensureFresh none (FetchOutcome.httpError 401 "Failed to fetch" none [])
        (FetchOutcome.httpError 401 "Failed to fetch" none []) 100000
        cState401).2.1.session.accessToken = some "AT" ∧
    (ensureFresh none (FetchOutcome.httpError 401 "Failed to fetch" none [])
        (FetchOutcome.httpError 401 "Failed to fetch" none []) 100000
        cState401).2.1.metaStore = cState401.metaStore ∧
    (ensureFresh none (FetchOutcome.httpError 401 "Failed to fetch" none [])
        (FetchOutcome.httpError 401 "Failed to fetch" none []) 100000
        cState401).1 =
      Except.error { name := "Error"
                     message := httpErrorMessage 401 "Failed to fetch"
                     status := some 401, isAuthError := false } ∧
    (ensureFresh none (FetchOutcome.httpError 401 "Failed to fetch" none [])
        (FetchOutcome.httpError 401 "Failed to fetch" none []) 100000
        cState401).2.2 = [Ev.fetchRefresh, Ev.delayMs 500, Ev.fetchRefresh] := by
  refine ⟨?_, ?_, ?_, ?_⟩ <;> decide

/-- C4: with a stale session and no refresh in flight, a network-level
fetch failure is retried exactly once after 500 ms: if the retry succeeds,
`ensureFresh` returns the freshly refreshed session (metadata saved); if
the retry also fails at the network level, the transient error is thrown
with the prior session and its persisted metadata intact (never cleared). -/
theorem ensureFresh_transient_retry
    (shared : Option (Except RefreshErr Session)) (now : Nat) (st : ClientState)
    (hlock : st.lockHeld = false) (hrip : st.refreshInProgress = false)
    (hglob : globalFreshB st.globalSession now = false)
    (hstale : validOver5min st.session now = false) :
    (∀ (tk : Tokens) (c : List String),
      (ensureFresh shared FetchOutcome.netError (FetchOutcome.success tk c) now st).1 =
        Except.ok (refreshedSession tk now st.session.user) ∧
      (ensureFresh shared FetchOutcome.netError (FetchOutcome.success tk c) now st).2.1.session =
        refreshedSession tk now st.session.user ∧
      (ensureFresh shared FetchOutcome.netError (FetchOutcome.success tk c) now st).2.1.metaStore =
        some (mkSessionMetadata (refreshedSession tk now st.session.user) now) ∧
      (ensureFresh shared FetchOutcome.netError (FetchOutcome.success tk c) now st).2.2.take 3 =
        [Ev.fetchRefresh, Ev.delayMs 500, Ev.fetchRefresh] ∧
      (ensureFresh shared FetchOutcome.netError (FetchOutcome.success tk c) now st).2.2.count
        Ev.fetchRefresh = 2 ∧
      Ev.clearMetaEv ∉
        (ensureFresh shared FetchOutcome.netError (FetchOutcome.success tk c) now st).2.2) ∧
    ((ensureFresh shared FetchOutcome.netError FetchOutcome.netError now st).1 =
        Except.error { name := "TypeError", message := "Failed to fetch"
                       status := none, isAuthError := false } ∧
      (ensureFresh shared FetchOutcome.netError FetchOutcome.netError now st).2.1.session =
        st.session ∧
      (ensureFresh shared FetchOutcome.netError FetchOutcome.netError now st).2.1.metaStore =
        st.metaStore ∧
      (ensureFresh shared FetchOutcome.netError FetchOutcome.netError now st).2.2 =
        [Ev.fetchRefresh, Ev.delayMs 500, Ev.fetchRefresh]) := by
  have hrcnet : reclassifyErr
      { name := "TypeError", message := "Failed to fetch"
        status := none, isAuthError := false } =
      ({ name := "TypeError", message := "Failed to fetch"
         status := none, isAuthError := false }, true) := by decide
  constructor
  · intro tk c
    rw [ensureFresh_refresh_path shared _ _ now st hlock hrip hglob hstale]
    set st₁ := { st with lockHeld := true, lockLastRefreshTime := now
                         refreshInProgress := true, lockPromiseSet := true } with hst₁
    unfold performRefresh attemptRefresh
    by_cases hc : c.any sessionRelatedCookie = true
    · simp [trackSessionChanges, hc, hrcnet, hst₁, mkSessionMetadata, refreshedSession]
    · have hc' : c.any sessionRelatedCookie = false := Bool.eq_false_iff.mpr hc
      simp [trackSessionChanges, hc', hrcnet, hst₁, mkSessionMetadata, refreshedSession]
  · rw [ensureFresh_refresh_path shared _ _ now st hlock hrip hglob hstale]
    unfold performRefresh attemptRefresh
    simp [hrcnet, failRefresh]

/-- A concrete client state with an expired token, for the transient-failure
scenario. -/
def cStateNet : ClientState :=
  { session :=
      { accessToken := some "AT", accessExpires := some 200
        ephemeralKey := some "EK", ephemeralExpires := some 100
        user := some "bob" }
    hasSessionMetadata := true, refreshInProgress := false
    lockHeld := false, lockPromiseSet := false, lockLastRefreshTime := 0
    globalSession := none
    metaStore := some { accessExpires := some 200, ephemeralExpires := some 100
                        user := some "bob", savedAt := 50 }
    pkce := emptyPkce, lastSessionRotation := none }

/-- Witness for C4: concrete retry-then-success and retry-then-fail runs. -/
theorem ensureFresh_transient_retry_witness :
    (ensureFresh none FetchOutcome.netError
        (FetchOutcome.success
          { access_token := "NEW", expires_in := 3600, ephemeral_key := some "EK2"
            ephemeral_expires_in := some 300, user := none } [])
        100000 cStateNet).1 =
      Except.ok (refreshedSession
        { access_token := "NEW", expires_in := 3600, ephemeral_key := some "EK2"
          ephemeral_expires_in := some 300, user := none } 100000 (some "bob")) ∧
    (ensureFresh none FetchOutcome.netError FetchOutcome.netError 100000
        cStateNet).2.1.metaStore = cStateNet.metaStore := by
  obtain ⟨h1, h2⟩ :=
    ensureFresh_transient_retry none 100000 cStateNet rfl rfl rfl (by decide)
  exact ⟨(h1 _ []).1, h2.2.2.1⟩

/-- Counterexample for C5: on a state mismatch the callback throws the CSRF
error but the PKCE storage keys (verifier, state, return URL) are still
present afterwards — the cleanup only guards the token-exchange block. -/
theorem handleRedirectCallback_csrf_residual_pkce_counterexample :
    (handleRedirectCallback (Except.error "unused") 1000
        { origin := "https://app.example", pathname := "/page"
          searchParams := [("code", "abc"), ("state", "evil")], hashParams := none }
        { codeVerifier := some "ver", stateValue := some "good"
          returnUrl := some "https://app.example/page" }
        emptySession none none).result = Except.error CbError.csrfError ∧
    (handleRedirectCallback (Except.error "unused") 1000
        { origin := "https://app.example", pathname := "/page"
          searchParams := [("code", "abc"), ("state", "evil")], hashParams := none }
        { codeVerifier := some "ver", stateValue := some "good"
          returnUrl := some "https://app.example/page" }
        emptySession none none).pkce =
      { codeVerifier := some "ver", stateValue := some "good"
        returnUrl := some "https://app.example/page" } := by
  constructor
  · rfl
  · rfl

/-- C5 amended: a callback carrying a truthy code whose state differs from
the stored one throws the CSRF error, and the PKCE storage keys are left
exactly as they were (not cleared); session and metadata are untouched. -/
theorem handleRedirectCallback_csrf_keeps_pkce
    (exchange : Except String Tokens) (now : Nat) (url : UrlState)
    (pkce : PkceStore) (session : Session) (gs : Option Session)
    (ms : Option SessionMetadata)
    (hcode : jsTruthyStr (resolveCallbackParams url).1 = true)
    (herr : jsTruthyStr (resolveCallbackParams url).2.2 = false)
    (hstate : (resolveCallbackParams url).2.1 ≠ pkce.stateValue) :
    (handleRedirectCallback exchange now url pkce session gs ms).result =
      Except.error CbError.csrfError ∧
    (handleRedirectCallback exchange now url pkce session gs ms).pkce = pkce ∧
    (handleRedirectCallback exchange now url pkce session gs ms).session = session ∧
    (handleRedirectCallback exchange now url pkce session gs ms).metaStore = ms := by
  rcases hrp : resolveCallbackParams url with ⟨code, stP, errP⟩
  rw [hrp] at hcode herr hstate
  unfold handleRedirectCallback
  rw [hrp]
  simp [hcode, herr, hstate]

/-- Witness for C5's amended statement at a concrete mismatching callback. -/
theorem handleRedirectCallback_csrf_keeps_pkce_witness :
    (handleRedirectCallback (Except.error "u") 5
        { origin := "https://o", pathname := "/p"
          searchParams := [("code", "c1"), ("state", "s-bad")], hashParams := none }
        { codeVerifier := some "v1", stateValue := some "s-good", returnUrl := none }
        emptySession none none).result = Except.error CbError.csrfError ∧
    (handleRedirectCallback (Except.error "u") 5
        { origin := "https://o", pathname := "/p"
          searchParams := [("code", "c1"), ("state", "s-bad")], hashParams := none }
        { codeVerifier := some "v1", stateValue := some "s-good", returnUrl := none }
        emptySession none none).pkce =
      { codeVerifier := some "v1", stateValue := some "s-good", returnUrl := none } := by
  have h := handleRedirectCallback_csrf_keeps_pkce (Except.error "u") 5
    { origin := "https://o", pathname := "/p"
      searchParams := [("code", "c1"), ("state", "s-bad")], hashParams := none }
    { codeVerifier := some "v1", stateValue := some "s-good", returnUrl := none }
    emptySession none none (by decide) (by decide) (by decide)
  exact ⟨h.1, h.2.1⟩

/-- C10: on every callback whose URL carries a truthy code (and no OAuth
error parameter), the first two observable effects are the URL rewrite to
`origin ++ pathname` and only then the read of the stored state, and the
visible URL ends up clean of the auth parameters on every outcome —
including the CSRF, missing-verifier and token-exchange error paths. -/
theorem handleRedirectCallback_cleans_url_before_state_check
    (exchange : Except String Tokens) (now : Nat) (url : UrlState)
    (pkce : PkceStore) (session : Session) (gs : Option Session)
    (ms : Option SessionMetadata)
    (hcode : jsTruthyStr (resolveCallbackParams url).1 = true)
    (herr : jsTruthyStr (resolveCallbackParams url).2.2 = false) :
    (handleRedirectCallback exchange now url pkce session gs ms).events.take 2 =
      [CbEv.urlReplaced (url.origin ++ url.pathname),
       CbEv.readStoredState pkce.stateValue] ∧
    (handleRedirectCallback exchange now url pkce session gs ms).finalUrl =
      { origin := url.origin, pathname := url.pathname, searchParams := []
        hashParams := none } := by
  rcases hrp : resolveCallbackParams url with ⟨code, stP, errP⟩
  rw [hrp] at hcode herr
  unfold handleRedirectCallback
  rw [hrp]
  by_cases hst : stP ≠ pkce.stateValue
  · simp [hcode, herr, hst]
  · by_cases hver : jsTruthyStr pkce.codeVerifier = true
    · rcases exchange with e | tk
      · simp [hcode, herr, hst, hver]
      · have hret : jsTruthyStr emptyPkce.returnUrl = false := rfl
        simp [hcode, herr, hst, hver, hret]
    · have hver' : jsTruthyStr pkce.codeVerifier = false := Bool.eq_false_iff.mpr hver
      simp [hcode, herr, hst, hver']

/-- Witness for C10 at a concrete callback with a mismatching state. -/
theorem handleRedirectCallback_cleans_url_witness :
    (handleRedirectCallback (Except.error "x") 9
        { origin := "https://site", pathname := "/cb"
          searchParams := [("code", "zz"), ("state", "bad")], hashParams := none }
        { codeVerifier := some "v", stateValue := some "expected", returnUrl := none }
        emptySession none none).events.take 2 =
      [CbEv.urlReplaced "https://site/cb", CbEv.readStoredState (some "expected")] ∧
    (handleRedirectCallback (Except.error "x") 9
        { origin := "https://site", pathname := "/cb"
          searchParams := [("code", "zz"), ("state", "bad")], hashParams := none }
        { codeVerifier := some "v", stateValue := some "expected", returnUrl := none }
        emptySession none none).finalUrl =
      { origin := "https://site", pathname := "/cb", searchParams := []
        hashParams := none } :=
  handleRedirectCallback_cleans_url_before_state_check (Except.error "x") 9
    { origin := "https://site", pathname := "/cb"
      searchParams := [("code", "zz"), ("state", "bad")], hashParams := none }
    { codeVerifier := some "v", stateValue := some "expected", returnUrl := none }
    emptySession none none (by decide) (by decide)

/-- A resolved client id is never the literal string `default`: it is
either empty, already `_dev`/`_prod`-suffixed, or gets such a suffix. -/
theorem resolveClientId_ne_default (d : Bool) (b : String) :
    resolveClientId d b ≠ "default" := by
  unfold resolveClientId
  by_cases hb : b = ""
  · simp [hb]
  · simp only [hb, if_false]
    by_cases he : (endsWithB b "_dev" || endsWithB b "_prod") = true
    · simp only [he, if_true]
      intro hEq
      rw [hEq] at he
      revert he
      decide
    · simp only [he, if_false]
      by_cases hd : d = true
      · simp only [hd, if_true]
        intro hEq
        have hdata := congrArg String.data hEq
        simp [String.data_append] at hdata
        have hlast := congrArg (fun l => l.getLast?) hdata
        simp [List.getLast?_append] at hlast
      · simp only [hd, if_false]
        intro hEq
        have hdata := congrArg String.data hEq
        simp [String.data_append] at hdata
        have hlast := congrArg (fun l => l.getLast?) hdata
        simp [List.getLast?_append] at hlast

/-- With equal auth URLs, distinct non-`default` client ids produce
distinct instance keys. -/
theorem getInstanceKey_ne (u c₁ c₂ : String)
    (h₁ : c₁ ≠ "default") (h₂ : c₂ ≠ "default") (hne : c₁ ≠ c₂) :
    getInstanceKey u c₁ ≠ getInstanceKey u c₂ := by
  unfold getInstanceKey
  intro h
  have hdata := congrArg String.data h
  simp only [String.data_append] at hdata
  have hq : (if c₁ = "" then "default" else c₁).data =
      (if c₂ = "" then "default" else c₂).data :=
    List.append_cancel_left hdata
  have hq' : (if c₁ = "" then "default" else c₁) =
      (if c₂ = "" then "default" else c₂) :=
    String.ext hq
  by_cases hb₁ : c₁ = ""
  · by_cases hb₂ : c₂ = ""
    · exact hne (hb₁.trans hb₂.symm)
    · rw [if_pos hb₁, if_neg hb₂] at hq'
      exact h₂ hq'.symm
  · by_cases hb₂ : c₂ = ""
    · rw [if_neg hb₁, if_pos hb₂] at hq'
      exact h₁ hq'
    · rw [if_neg hb₁, if_neg hb₂] at hq'
      exact hne hq'

/-- A successful registry lookup names a registered entry. -/
theorem Registry.lookup_mem {reg : Registry} {k : String} {i : Nat}
    (h : reg.lookup k = some i) : (k, i) ∈ reg.clients := by
  unfold Registry.lookup at h
  rcases hf : reg.clients.find? (fun p => p.1 = k) with _ | p
  · rw [hf] at h
    exact absurd h (by simp)
  · rw [hf] at h
    simp at h
    have hk : p.1 = k := by
      have := List.find?_some hf
      exact of_decide_eq_true this
    have hm := List.mem_of_find?_eq_some hf
    have hpk : p = (k, i) := by
      rcases p with ⟨pk, pi⟩
      simp_all
    rw [hpk] at hm
    exact hm

/-- Registry lookup skips an entry whose key differs. -/
theorem Registry.lookup_cons_ne (k k' : String) (i n : Nat)
    (cls : List (String × Nat)) (h : k ≠ k') :
    Registry.lookup { clients := (k, i) :: cls, nextId := n } k' =
      Registry.lookup { clients := cls, nextId := n } k' := by
  unfold Registry.lookup
  simp only [List.find?]
  rw [show (decide ((k, i).1 = k')) = false from decide_eq_false h]

/-- Registry lookup finds the entry just registered under a key. -/
theorem Registry.lookup_cons_self (k : String) (i n : Nat)
    (cls : List (String × Nat)) :
    Registry.lookup { clients := (k, i) :: cls, nextId := n } k = some i := by
  unfold Registry.lookup
  simp [List.find?]

/-- Counterexample for C6: the registry key is the hyphen-join of the
resolved auth URL and client id, so two constructions with different
resolved client ids — but colliding keys — return the same instance:
`("https://a", "b-c_dev")` and `("https://a-b", "c_dev")` both map to the
key `https://a-b-c_dev`. -/
theorem constructClient_distinct_clientId_same_instance_counterexample :
    resolveClientId false "b-c_dev" ≠ resolveClientId false "c_dev" ∧
    (constructClient (constructClient { clients := [], nextId := 0 } false
        "https://a" "b-c_dev").2 false "https://a-b" "c_dev").1 =
      (constructClient { clients := [], nextId := 0 } false
        "https://a" "b-c_dev").1 := by
  constructor
  · decide
  · decide

/-- C6 amended: constructing with an identical resolved `(authUrl,
clientId)` pair returns the already-registered instance and registers
nothing new; constructing with the same resolved auth URL but a different
resolved client id yields a distinct instance. (The unamended claim fails
when the auth URLs differ too, because the hyphen-joined keys can collide.)
-/
theorem constructClient_singleton (isDev : Bool) (reg : Registry)
    (hwf : reg.WF) (a₁ c₁ a₂ c₂ : String) :
    (resolveAuthUrl isDev a₁ = resolveAuthUrl isDev a₂ →
     resolveClientId isDev c₁ = resolveClientId isDev c₂ →
     (constructClient (constructClient reg isDev a₁ c₁).2 isDev a₂ c₂).1 =
         (constructClient reg isDev a₁ c₁).1 ∧
       (constructClient (constructClient reg isDev a₁ c₁).2 isDev a₂ c₂).2 =
         (constructClient reg isDev a₁ c₁).2) ∧
    (resolveAuthUrl isDev a₁ = resolveAuthUrl isDev a₂ →
     resolveClientId isDev c₁ ≠ resolveClientId isDev c₂ →
     (constructClient (constructClient reg isDev a₁ c₁).2 isDev a₂ c₂).1 ≠
       (constructClient reg isDev a₁ c₁).1) := by
  constructor
  · intro hau hcl
    unfold constructClient
    rw [← hau, ← hcl]
    rcases hl : reg.lookup
        (getInstanceKey (resolveAuthUrl isDev a₁) (resolveClientId isDev c₁)) with _ | i
    · simp only [hl]
      have hself := Registry.lookup_cons_self
        (getInstanceKey (resolveAuthUrl isDev a₁) (resolveClientId isDev c₁))
        reg.nextId (reg.nextId + 1) reg.clients
      simp [hself]
    · simp [hl]
  · intro hau hcl
    have hk : getInstanceKey (resolveAuthUrl isDev a₁) (resolveClientId isDev c₁) ≠
        getInstanceKey (resolveAuthUrl isDev a₂) (resolveClientId isDev c₂) := by
      rw [← hau]
      exact getInstanceKey_ne _ _ _ (resolveClientId_ne_default isDev c₁)
        (resolveClientId_ne_default isDev c₂) hcl
    unfold constructClient
    rcases hl₁ : reg.lookup
        (getInstanceKey (resolveAuthUrl isDev a₁) (resolveClientId isDev c₁)) with _ | i₁
    · -- first construction registers a fresh instance `reg.nextId`
      simp only [hl₁]
      have hl₂ : (Registry.lookup
          { clients := (getInstanceKey (resolveAuthUrl isDev a₁)
              (resolveClientId isDev c₁), reg.nextId) :: reg.clients
            nextId := reg.nextId + 1 }
          (getInstanceKey (resolveAuthUrl isDev a₂) (resolveClientId isDev c₂))) =
          reg.lookup (getInstanceKey (resolveAuthUrl isDev a₂) (resolveClientId isDev c₂)) := by
        have := Registry.lookup_cons_ne
          (getInstanceKey (resolveAuthUrl isDev a₁) (resolveClientId isDev c₁))
          (getInstanceKey (resolveAuthUrl isDev a₂) (resolveClientId isDev c₂))
          reg.nextId (reg.nextId + 1) reg.clients hk
        rw [this]
        rfl
      rcases hl₂' : reg.lookup
          (getInstanceKey (resolveAuthUrl isDev a₂) (resolveClientId isDev c₂)) with _ | i₂
      · rw [hl₂'] at hl₂
        simp [hl₂]
      · rw [hl₂'] at hl₂
        simp only [hl₂]
        have hmem := Registry.lookup_mem hl₂'
        have hlt : i₂ < reg.nextId := hwf.1 _ hmem
        simp
        omega
    · -- first construction found an existing instance `i₁`
      simp only [hl₁]
      rcases hl₂ : reg.lookup
          (getInstanceKey (resolveAuthUrl isDev a₂) (resolveClientId isDev c₂)) with _ | i₂
      · have hmem := Registry.lookup_mem hl₁
        have hlt : i₁ < reg.nextId := hwf.1 _ hmem
        simp [hl₂]
        omega
      · have hmem₁ := Registry.lookup_mem hl₁
        have hmem₂ := Registry.lookup_mem hl₂
        have hpair : ∀ p ∈ reg.clients, ∀ q ∈ reg.clients, p ≠ q →
            p.1 ≠ q.1 ∧ p.2 ≠ q.2 := by
          intro p hp q hq hpq
          exact List.Pairwise.forall
            (fun x y hxy => ⟨hxy.1.symm, hxy.2.symm⟩) hwf.2 hp hq hpq
        have hne : ((getInstanceKey (resolveAuthUrl isDev a₁) (resolveClientId isDev c₁), i₁) :
            String × Nat) ≠ (getInstanceKey (resolveAuthUrl isDev a₂) (resolveClientId isDev c₂), i₂) := by
          intro hcon
          exact hk (congrArg Prod.fst hcon)
        have := hpair _ hmem₁ _ hmem₂ hne
        simp [hl₂]
        exact fun hcon => this.2 (by rw [hcon])

/-- Witness for C6's amended statement: an identical config returns the
registered instance; a different client id under the same auth URL yields a
distinct one. -/
theorem constructClient_singleton_witness :
    (constructClient (constructClient { clients := [], nextId := 0 } false
        "https://auth" "app").2 false "https://auth" "app").1 =
      (constructClient { clients := [], nextId := 0 } false "https://auth" "app").1 ∧
    (constructClient (constructClient { clients := [], nextId := 0 } false
        "https://auth" "app").2 false "https://auth" "other").1 ≠
      (constructClient { clients := [], nextId := 0 } false "https://auth" "app").1 := by
  have hwf : Registry.WF { clients := [], nextId := 0 } :=
    ⟨by simp, List.Pairwise.nil⟩
  exact ⟨((constructClient_singleton false { clients := [], nextId := 0 } hwf
      "https://auth" "app" "https://auth" "app").1 rfl rfl).1,
    (constructClient_singleton false { clients := [], nextId := 0 } hwf
      "https://auth" "app" "https://auth" "other").2 rfl (by decide)⟩

/-- All positions of a task list satisfy a predicate. -/
def TasksAll (P : TaskPc → Prop) (l : List TaskPc) : Prop :=
  ∀ j t, l.get? j = some t → P t

/-- Setting one position preserves a positionwise predicate when the new
value satisfies it. -/
theorem tasksAll_set {P : TaskPc → Prop} {l : List TaskPc} {i : Nat} {v : TaskPc}
    (hl : TasksAll P l) (hv : P v) : TasksAll P (l.set i v) := by
  intro j t hj
  by_cases hij : i = j
  · subst hij
    by_cases hlen : i < l.length
    · rw [List.get?_set_eq_of_lt _ hlen] at hj
      cases hj
      exact hv
    · have hnone : (l.set i v).get? i = none := by
        rw [List.get?_eq_none]
        rw [List.length_set]
        omega
      rw [hnone] at hj
      cases hj
  · rw [List.get?_set_ne _ _ hij] at hj
    exact hl j t hj

/-- A freshly refreshed session with a nonempty token and positive lifetime
passes the global-session freshness test. -/
theorem globalFreshB_refreshed (tk : Tokens) (now : Nat) (u : Option String)
    (htok : tk.access_token ≠ "") (hexp : 0 < tk.expires_in) :
    globalFreshB (some (refreshedSession tk now u)) now = true := by
  have hpos : 0 < tk.expires_in * 1000 := Nat.mul_pos hexp (by norm_num)
  simp [globalFreshB, refreshedSession, jsTruthyStr, jsGt, htok]
  omega

/-- The inductive invariant of the concurrent-refresh system: before any
caller acquired the lock (no fetch yet), while the single owner's fetch is
in flight (exactly one fetch, lock held), and after the shared promise
resolved with the refreshed session (still exactly one fetch, every
finished caller holding the refreshed session). -/
def ConcInv (s0 : Session) (g0 : Option Session) (fresh : Session)
    (st : ConcState) : Prop :=
  (st.locked = false ∧ st.resolved = none ∧ st.fetches = 0 ∧ st.sess = s0 ∧
    st.globalSess = g0 ∧ TasksAll (fun t => t = TaskPc.start) st.tasks) ∨
  (st.locked = true ∧ st.resolved = none ∧ st.fetches = 1 ∧ st.sess = s0 ∧
    st.globalSess = g0 ∧
    ∃ i, st.tasks.get? i = some TaskPc.owner ∧
      ∀ j t, st.tasks.get? j = some t → j ≠ i →
        (t = TaskPc.start ∨ t = TaskPc.waiting)) ∨
  (st.resolved = some fresh ∧ st.fetches = 1 ∧ st.sess = fresh ∧
    st.globalSess = some fresh ∧
    TasksAll (fun t => t = TaskPc.start ∨ t = TaskPc.waiting ∨
      t = TaskPc.releasing ∨ t = TaskPc.done fresh) st.tasks)

/-- One step preserves the invariant. -/
theorem concInv_step (tk : Tokens) (now : Nat) (s0 : Session)
    (g0 : Option Session)
    (hs0 : validOver5min s0 now = false)
    (hg0 : globalFreshB g0 now = false)
    (htok : tk.access_token ≠ "") (hexp : 0 < tk.expires_in)
    {st st' : ConcState}
    (hinv : ConcInv s0 g0 (refreshedSession tk now s0.user) st)
    (hstep : CStep tk now st st') :
    ConcInv s0 g0 (refreshedSession tk now s0.user) st' := by
  set fresh := refreshedSession tk now s0.user with hfr
  cases hstep with
  | startWait i hi hl =>
    rcases hinv with ⟨h1, _⟩ | ⟨_, h2, h3, h4, h5, j, hj, hcls⟩ | ⟨h1, h2, h3, h4, h5⟩
    · rw [hl] at h1
      cases h1
    · refine Or.inr (Or.inl ⟨hl, h2, h3, h4, h5, j, ?_, ?_⟩)
      · have hij : i ≠ j := by
          intro hcon
          subst hcon
          rw [hi] at hj
          cases hj
        rw [List.get?_set_ne _ _ hij]
        exact hj
      · intro k t hk hkj
        by_cases hik : i = k
        · subst hik
          by_cases hlen : i < st.tasks.length
          · rw [List.get?_set_eq_of_lt _ hlen] at hk
            cases hk
            exact Or.inr rfl
          · rw [List.get?_eq_none.mpr (by rw [List.length_set]; omega)] at hk
            cases hk
        · rw [List.get?_set_ne _ _ hik] at hk
          exact hcls k t hk hkj
    · exact Or.inr (Or.inr ⟨h1, h2, h3, h4, tasksAll_set h5 (Or.inr (Or.inl rfl))⟩)
  | startGlobal i g hi hl hg hf =>
    rcases hinv with ⟨_, _, _, _, h5, _⟩ | ⟨_, _, _, _, h5, _⟩ |
        ⟨h1, h2, h3, h4, h5⟩
    · rw [h5] at hf
      rw [hg0] at hf
      cases hf
    · rw [h5] at hf
      rw [hg0] at hf
      cases hf
    · have hgf : g = fresh := by
        rw [h4] at hg
        cases hg
        rfl
      subst hgf
      exact Or.inr (Or.inr ⟨h1, h2, rfl, h4,
        tasksAll_set h5 (Or.inr (Or.inr (Or.inr rfl)))⟩)
  | startValid i hi hl hg hv =>
    rcases hinv with ⟨_, _, _, h4, _, _⟩ | ⟨_, _, _, h4, _, _⟩ |
        ⟨h1, h2, h3, h4, h5⟩
    · rw [h4] at hv
      rw [hs0] at hv
      cases hv
    · rw [h4] at hv
      rw [hs0] at hv
      cases hv
    · refine Or.inr (Or.inr ⟨h1, h2, h3, h4, tasksAll_set h5 ?_⟩)
      rw [h3]
      exact Or.inr (Or.inr (Or.inr rfl))
  | startAcquire i hi hl hg hv =>
    rcases hinv with ⟨h1, h2, h3, h4, h5, h6⟩ | ⟨h1, _⟩ | ⟨_, _, _, h4, _⟩
    · have hlen : i < st.tasks.length := by
        by_contra hcon
        rw [List.get?_eq_none.mpr (by omega)] at hi
        cases hi
      refine Or.inr (Or.inl ⟨rfl, h2, by rw [h3], h4, h5, i, ?_, ?_⟩)
      · rw [List.get?_set_eq_of_lt _ hlen]
      · intro k t hk hki
        rw [List.get?_set_ne _ _ (fun hcon => hki hcon.symm)] at hk
        exact Or.inl (h6 k t hk)
    · rw [h1] at hl
      cases hl
    · rw [h4] at hg
      rw [globalFreshB_refreshed tk now s0.user htok hexp] at hg
      cases hg
  | fetchResolve i hi =>
    rcases hinv with ⟨_, _, _, _, _, h6⟩ | ⟨h1, h2, h3, h4, h5, j, hj, hcls⟩ |
        ⟨_, _, _, _, h5⟩
    · have := h6 i TaskPc.owner hi
      cases this
    · have hij : i = j := by
        by_contra hcon
        have := hcls i TaskPc.owner hi hcon
        rcases this with h | h <;> cases h
      subst hij
      refine Or.inr (Or.inr ⟨?_, h3, ?_, ?_, ?_⟩)
      · rw [h4]
      · rw [h4]
      · rw [h4]
      · intro k t hk
        by_cases hik : i = k
        · subst hik
          by_cases hlen : i < st.tasks.length
          · rw [List.get?_set_eq_of_lt _ hlen] at hk
            cases hk
            exact Or.inr (Or.inr (Or.inl rfl))
          · rw [List.get?_eq_none.mpr (by rw [List.length_set]; omega)] at hk
            cases hk
        · rw [List.get?_set_ne _ _ hik] at hk
          rcases hcls k t hk (fun hcon => hik hcon.symm) with h | h
          · exact Or.inl h
          · exact Or.inr (Or.inl h)
    · have := h5 i TaskPc.owner hi
      rcases this with h | h | h | h <;> cases h
  | ownerRelease i r hi hr =>
    rcases hinv with ⟨_, _, _, _, _, h6⟩ | ⟨_, h2, _⟩ | ⟨h1, h2, h3, h4, h5⟩
    · have := h6 i TaskPc.releasing hi
      cases this
    · rw [h2] at hr
      cases hr
    · have hrf : r = fresh := by
        rw [h1] at hr
        cases hr
        rfl
      subst hrf
      exact Or.inr (Or.inr ⟨h1, h2, h3, h4,
        tasksAll_set h5 (Or.inr (Or.inr (Or.inr rfl)))⟩)
  | waiterResume i r hi hr =>
    rcases hinv with ⟨_, _, _, _, _, h6⟩ | ⟨_, h2, _⟩ | ⟨h1, h2, h3, h4, h5⟩
    · have := h6 i TaskPc.waiting hi
      cases this
    · rw [h2] at hr
      cases hr
    · have hrf : r = fresh := by
        rw [h1] at hr
        cases hr
        rfl
      subst hrf
      by_cases hcase : jsTruthyStr fresh.accessToken = true
      · rw [if_pos hcase]
        exact Or.inr (Or.inr ⟨h1, h2, rfl, h4,
          tasksAll_set h5 (Or.inr (Or.inr (Or.inr rfl)))⟩)
      · rw [if_neg hcase]
        refine Or.inr (Or.inr ⟨h1, h2, h3, h4, ?_⟩)
        have hgoal : TasksAll (fun t => t = TaskPc.start ∨ t = TaskPc.waiting ∨
            t = TaskPc.releasing ∨ t = TaskPc.done fresh)
            (st.tasks.set i (TaskPc.done st.sess)) := by
          rw [h3]
          exact tasksAll_set h5 (Or.inr (Or.inr (Or.inr rfl)))
        exact hgoal

/-- Every reachable state of the concurrent-refresh system satisfies the
invariant. -/
theorem concInv_reach (tk : Tokens) (now : Nat) (s0 : Session)
    (g0 : Option Session) (N : Nat)
    (hs0 : validOver5min s0 now = false)
    (hg0 : globalFreshB g0 now = false)
    (htok : tk.access_token ≠ "") (hexp : 0 < tk.expires_in)
    {st : ConcState} (h : CReach tk now (initConc s0 g0 N) st) :
    ConcInv s0 g0 (refreshedSession tk now s0.user) st := by
  induction h with
  | refl =>
    refine Or.inl ⟨rfl, rfl, rfl, rfl, rfl, ?_⟩
    intro j t hj
    exact List.eq_of_mem_replicate (List.get?_mem hj)
  | step h hs ih => exact concInv_step tk now s0 g0 hs0 hg0 htok hexp ih hs

/-- Steps do not change the number of callers. -/
theorem creach_tasks_length (tk : Tokens) (now : Nat) (s0 : Session)
    (g0 : Option Session) (N : Nat) {st : ConcState}
    (h : CReach tk now (initConc s0 g0 N) st) : st.tasks.length = N := by
  induction h with
  | refl => simp [initConc]
  | step h hs ih =>
    cases hs with
    | startWait i hi hl => simpa [List.length_set] using ih
    | startGlobal i g hi hl hg hf => simpa [List.length_set] using ih
    | startValid i hi hl hg hv => simpa [List.length_set] using ih
    | startAcquire i hi hl hg hv => simpa [List.length_set] using ih
    | fetchResolve i hi => simpa [List.length_set] using ih
    | ownerRelease i r hi hr => simpa [List.length_set] using ih
    | waiterResume i r hi hr =>
      by_cases hcase : jsTruthyStr r.accessToken = true
      · rw [if_pos hcase]
        simpa [List.length_set] using ih
      · rw [if_neg hcase]
        simpa [List.length_set] using ih

/-- C2: from an initial state with `N ≥ 2` concurrent `ensureFresh` callers
on a session within five minutes of expiry (and no fresh global session),
every complete run — all callers finished, under any interleaving — issues
exactly one network refresh, and every caller's returned session carries
the refreshed `accessToken` and `accessExpires`. -/
theorem ensureFresh_concurrent_single_refresh
    (tk : Tokens) (now N : Nat) (s0 : Session) (g0 : Option Session)
    (st : ConcState) (hN : 2 ≤ N)
    (hs0 : validOver5min s0 now = false)
    (hg0 : globalFreshB g0 now = false)
    (htok : tk.access_token ≠ "") (hexp : 0 < tk.expires_in)
    (hreach : CReach tk now (initConc s0 g0 N) st)
    (hdone : ∀ t ∈ st.tasks, ∃ r, t = TaskPc.done r) :
    st.fetches = 1 ∧
    ∀ r, TaskPc.done r ∈ st.tasks →
      r.accessToken = some tk.access_token ∧
      r.accessExpires = some (now + tk.expires_in * 1000) := by
  have hinv := concInv_reach tk now s0 g0 N hs0 hg0 htok hexp hreach
  have hlen := creach_tasks_length tk now s0 g0 N hreach
  rcases hinv with ⟨_, _, _, _, _, h6⟩ | ⟨_, _, _, _, _, j, hj, _⟩ |
      ⟨_, h2, _, _, h5⟩
  · have hpos : 0 < st.tasks.length := by omega
    have h0 : st.tasks.get? 0 = some (st.tasks.get ⟨0, hpos⟩) :=
      List.get?_eq_get hpos
    have hstart := h6 0 _ h0
    rcases hdone _ (List.get?_mem h0) with ⟨r, hr⟩
    rw [hstart] at hr
    cases hr
  · rcases hdone _ (List.get?_mem hj) with ⟨r, hr⟩
    cases hr
  · refine ⟨h2, ?_⟩
    intro r hrmem
    rcases List.mem_iff_get?.mp hrmem with ⟨n, hn⟩
    rcases h5 n _ hn with h | h | h | h
    · cases h
    · cases h
    · cases h
    · injection h with h'
      subst h'
      exact ⟨rfl, rfl⟩

/-- Token response for the concrete concurrent run. -/
def c2Tokens : Tokens :=
  { access_token := "AT1", expires_in := 3600, ephemeral_key := some "EK1"
    ephemeral_expires_in := some 300, user := none }

/-- Initial session for the concrete concurrent run: expires in 100 ms. -/
def c2S0 : Session :=
  { accessToken := some "old", accessExpires := some 1100
    ephemeralKey := none, ephemeralExpires := none, user := some "u" }

/-- The session installed by the successful refresh of the concrete run. -/
def c2Fresh : Session := refreshedSession c2Tokens 1000 (some "u")

/-- Final state of one complete two-caller interleaving. -/
def c2Final : ConcState :=
  { locked := false, resolved := some c2Fresh, fetches := 1, sess := c2Fresh
    globalSess := some c2Fresh
    tasks := [TaskPc.done c2Fresh, TaskPc.done c2Fresh] }

/-- Witness for C2: a concrete two-caller interleaving (acquire, wait,
resolve, release, resume) reaches a final state with exactly one fetch and
both callers holding the refreshed session. -/
theorem ensureFresh_concurrent_single_refresh_witness :
    c2Final.fetches = 1 ∧
    ∀ r, TaskPc.done r ∈ c2Final.tasks →
      r.accessToken = some c2Tokens.access_token ∧
      r.accessExpires = some (1000 + c2Tokens.expires_in * 1000) := by
  have h1 : CReach c2Tokens 1000 (initConc c2S0 none 2)
      { locked := true, resolved := none, fetches := 1, sess := c2S0
        globalSess := none, tasks := [TaskPc.owner, TaskPc.start] } :=
    CReach.step CReach.refl
      (CStep.startAcquire (initConc c2S0 none 2) 0 rfl rfl rfl (by decide))
  have h2 : CReach c2Tokens 1000 (initConc c2S0 none 2)
      { locked := true, resolved := none, fetches := 1, sess := c2S0
        globalSess := none, tasks := [TaskPc.owner, TaskPc.waiting] } :=
    CReach.step h1 (CStep.startWait _ 1 rfl rfl)
  have h3 : CReach c2Tokens 1000 (initConc c2S0 none 2)
      { locked := true, resolved := some c2Fresh, fetches := 1, sess := c2Fresh
        globalSess := some c2Fresh
        tasks := [TaskPc.releasing, TaskPc.waiting] } :=
    CReach.step h2 (CStep.fetchResolve _ 0 rfl)
  have h4 : CReach c2Tokens 1000 (initConc c2S0 none 2)
      { locked := false, resolved := some c2Fresh, fetches := 1, sess := c2Fresh
        globalSess := some c2Fresh
        tasks := [TaskPc.done c2Fresh, TaskPc.waiting] } :=
    CReach.step h3 (CStep.ownerRelease _ 0 c2Fresh rfl rfl)
  have hreach : CReach c2Tokens 1000 (initConc c2S0 none 2) c2Final :=
    CReach.step h4 (CStep.waiterResume _ 1 c2Fresh rfl rfl)
  refine ensureFresh_concurrent_single_refresh c2Tokens 1000 2 c2S0 none c2Final
    (by omega) (by decide) rfl (by decide) (by decide) hreach ?_
  intro t ht
  simp only [c2Final, List.mem_cons, List.not_mem_nil, or_false] at ht
  rcases ht with h | h <;> exact ⟨c2Fresh, h⟩

end OpenCard
